import Mathlib

/-!
Verification of the cavity-flow pressure-projection solver in
`src/navierstokes/flow.py`: `build_up_b`, `pressure_poisson` and
`cavity_flow`, embedded shallowly over exact rational arithmetic.

Grids are total functions `ℕ → ℕ → ℚ`; the grid dimensions `ny × nx`
are explicit parameters (in the source they are enclosing-scope
globals, as are `nit` and `nt`).  Each numpy slice assignment becomes a
pointwise function update, composed in exactly the order the source
performs the assignments.
-/

namespace NavierStokes

/-- A 2D field of rationals, indexed (row i, column j) like the numpy
arrays of shape `ny × nx` in the source. -/
def Grid : Type := ℕ → ℕ → ℚ

/-- The all-zero field, as produced by `np.zeros((ny, nx))`. -/
def gridZero : Grid := fun _ _ => 0

/-- Slice assignment `g[r, :] = c`. -/
def setRow (r : ℕ) (c : ℚ) (g : Grid) : Grid :=
  fun i j => if i = r then c else g i j

/-- Slice assignment `g[:, cl] = c`. -/
def setCol (cl : ℕ) (c : ℚ) (g : Grid) : Grid :=
  fun i j => if j = cl then c else g i j

/-- Slice assignment `g[dst, :] = g[src, :]`. -/
def copyRow (dst src : ℕ) (g : Grid) : Grid :=
  fun i j => if i = dst then g src j else g i j

/-- Slice assignment `g[:, dst] = g[:, src]`. -/
def copyCol (dst src : ℕ) (g : Grid) : Grid :=
  fun i j => if j = dst then g i src else g i j

/-- Cell (i, j) lies in the interior slice `[1:-1, 1:-1]` of an
`ny × nx` grid. -/
def interior (ny nx i j : ℕ) : Prop :=
  0 < i ∧ i < ny - 1 ∧ 0 < j ∧ j < nx - 1

instance (ny nx i j : ℕ) : Decidable (interior ny nx i j) :=
  inferInstanceAs (Decidable (0 < i ∧ i < ny - 1 ∧ 0 < j ∧ j < nx - 1))

/-- `build_up_b(b, rho, dt, u, v, dx, dy)` from `flow.py` lines 4-12:
writes the discretized source term into the interior slice of `b` and
returns `b`; every other cell keeps its previous value. -/
def build_up_b (ny nx : ℕ) (b : Grid) (rho dt : ℚ) (u v : Grid)
    (dx dy : ℚ) : Grid :=
  fun i j =>
    if interior ny nx i j then
      rho * (1 / dt *
          ((u i (j + 1) - u i (j - 1)) / (2 * dx) +
           (v (i + 1) j - v (i - 1) j) / (2 * dy)) -
        ((u i (j + 1) - u i (j - 1)) / (2 * dx)) ^ 2 -
        2 * ((u (i + 1) j - u (i - 1) j) / (2 * dy) *
             (v i (j + 1) - v i (j - 1)) / (2 * dx)) -
        ((v (i + 1) j - v (i - 1) j) / (2 * dy)) ^ 2)
    else b i j

/-- The interior assignment of one Jacobi sweep, `flow.py` lines 21-25:
`p[1:-1,1:-1]` is recomputed from the snapshot `pn = p.copy()`; every
other cell still holds its value from `pn`. -/
def poissonInterior (ny nx : ℕ) (dx dy : ℚ) (b pn : Grid) : Grid :=
  fun i j =>
    if interior ny nx i j then
      ((pn i (j + 1) + pn i (j - 1)) * dy ^ 2 +
       (pn (i + 1) j + pn (i - 1) j) * dx ^ 2) /
        (2 * (dx ^ 2 + dy ^ 2)) -
      dx ^ 2 * dy ^ 2 / (2 * (dx ^ 2 + dy ^ 2)) * b i j
    else pn i j

/-- One full Jacobi sweep of `pressure_poisson`, `flow.py` lines 20-30:
the interior update followed by the four boundary assignments in source
order: `p[:,-1]=p[:,-2]`, `p[0,:]=p[1,:]`, `p[:,0]=p[:,1]`,
`p[-1,:]=0`. -/
def poissonSweep (ny nx : ℕ) (dx dy : ℚ) (b p : Grid) : Grid :=
  setRow (ny - 1) 0
    (copyCol 0 1
      (copyRow 0 1
        (copyCol (nx - 1) (nx - 2)
          (poissonInterior ny nx dx dy b p))))

/-- The `for q in range(nit)` loop of `pressure_poisson`: `n` sweeps
applied in sequence. -/
def poissonIter (ny nx : ℕ) (dx dy : ℚ) (b : Grid) : ℕ → Grid → Grid
  | 0, p => p
  | n + 1, p => poissonSweep ny nx dx dy b (poissonIter ny nx dx dy b n p)

/-- `pressure_poisson(p, dx, dy, b)` from `flow.py` lines 15-32, with
the enclosing-scope globals `ny`, `nx`, `nit` made explicit. -/
def pressure_poisson (ny nx : ℕ) (p : Grid) (dx dy : ℚ) (b : Grid)
    (nit : ℕ) : Grid :=
  poissonIter ny nx dx dy b nit p

/-- The interior update of `u`, `flow.py` lines 47-56: reads only the
snapshots `un`, `vn` and the freshly solved pressure `p`; cells outside
the interior keep the current value of `u`. -/
def uInteriorUpdate (ny nx : ℕ) (dt dx dy rho nu : ℚ)
    (un vn p u : Grid) : Grid :=
  fun i j =>
    if interior ny nx i j then
      un i j -
      un i j * dt / dx * (un i j - un i (j - 1)) -
      vn i j * dt / dy * (un i j - un (i - 1) j) -
      dt / (2 * rho * dx) * (p i (j + 1) - p i (j - 1)) +
      nu * (dt / dx ^ 2 *
          (un i (j + 1) - 2 * un i j + un i (j - 1)) +
        dt / dy ^ 2 *
          (un (i + 1) j - 2 * un i j + un (i - 1) j))
    else u i j

/-- The interior update of `v`, `flow.py` lines 58-67. -/
def vInteriorUpdate (ny nx : ℕ) (dt dx dy rho nu : ℚ)
    (un vn p v : Grid) : Grid :=
  fun i j =>
    if interior ny nx i j then
      vn i j -
      un i j * dt / dx * (vn i j - vn i (j - 1)) -
      vn i j * dt / dy * (vn i j - vn (i - 1) j) -
      dt / (2 * rho * dy) * (p (i + 1) j - p (i - 1) j) +
      nu * (dt / dx ^ 2 *
          (vn i (j + 1) - 2 * vn i j + vn i (j - 1)) +
        dt / dy ^ 2 *
          (vn (i + 1) j - 2 * vn i j + vn (i - 1) j))
    else v i j

/-- The mutable state threaded through the timestep loop of
`cavity_flow`: the fields `u`, `v`, `p` and the reused buffer `b`. -/
structure FlowState where
  u : Grid
  v : Grid
  p : Grid
  b : Grid

/-- One iteration of the `for n in range(nt)` loop of `cavity_flow`,
`flow.py` lines 41-76: snapshot `un, vn`, build `b`, solve the
pressure, update both velocity interiors from the snapshots, then
apply the eight boundary assignments in source order (`u[0,:]=0`,
`u[:,0]=0`, `u[:,-1]=0`, `u[-1,:]=1`, `v[0,:]=0`, `v[-1,:]=0`,
`v[:,0]=0`, `v[:,-1]=0`). -/
def cavityStep (ny nx : ℕ) (dt dx dy rho nu : ℚ) (nit : ℕ)
    (s : FlowState) : FlowState :=
  let un := s.u
  let vn := s.v
  let b1 := build_up_b ny nx s.b rho dt s.u s.v dx dy
  let p1 := pressure_poisson ny nx s.p dx dy b1 nit
  let u1 := uInteriorUpdate ny nx dt dx dy rho nu un vn p1 s.u
  let v1 := vInteriorUpdate ny nx dt dx dy rho nu un vn p1 s.v
  let u2 := setRow (ny - 1) 1 (setCol (nx - 1) 0 (setCol 0 0 (setRow 0 0 u1)))
  let v2 := setCol (nx - 1) 0 (setCol 0 0 (setRow (ny - 1) 0 (setRow 0 0 v1)))
  { u := u2, v := v2, p := p1, b := b1 }

/-- `n` timesteps of the `cavity_flow` loop in sequence. -/
def cavityIter (ny nx : ℕ) (dt dx dy rho nu : ℚ) (nit : ℕ) :
    ℕ → FlowState → FlowState
  | 0, s => s
  | n + 1, s =>
      cavityStep ny nx dt dx dy rho nu nit
        (cavityIter ny nx dt dx dy rho nu nit n s)

/-- `cavity_flow(nt, u, v, dt, dx, dy, p, rho, nu)` from `flow.py`
lines 35-78, with the enclosing-scope globals `ny`, `nx`, `nit` made
explicit; `b` starts as `np.zeros((ny, nx))` and is reused across
steps. -/
def cavity_flow (nt ny nx : ℕ) (u v : Grid) (dt dx dy : ℚ) (p : Grid)
    (rho nu : ℚ) (nit : ℕ) : Grid × Grid × Grid :=
  let s := cavityIter ny nx dt dx dy rho nu nit nt
    { u := u, v := v, p := p, b := gridZero }
  (s.u, s.v, s.p)

/-! ## Spec-side definitions, for refinement comparisons.

These follow the wording of the specification, to be compared with the
definitions above, which follow the source. -/

/-- The spec's interior assignment of a Jacobi sweep, written as the
single fraction
`p[i,j] = ((pn[i,j+1]+pn[i,j-1])*dy^2 + (pn[i+1,j]+pn[i-1,j])*dx^2
          - dx^2*dy^2*b[i,j]) / (2*(dx^2+dy^2))`. -/
def specPoissonInterior (ny nx : ℕ) (dx dy : ℚ) (b pn : Grid) : Grid :=
  fun i j =>
    if interior ny nx i j then
      ((pn i (j + 1) + pn i (j - 1)) * dy ^ 2 +
       (pn (i + 1) j + pn (i - 1) j) * dx ^ 2 -
       dx ^ 2 * dy ^ 2 * b i j) / (2 * (dx ^ 2 + dy ^ 2))
    else pn i j

/-- A Jacobi sweep as the spec words it: the interior assignment in
single-fraction form, then the four boundary conditions. -/
def specPoissonSweep (ny nx : ℕ) (dx dy : ℚ) (b p : Grid) : Grid :=
  setRow (ny - 1) 0
    (copyCol 0 1
      (copyRow 0 1
        (copyCol (nx - 1) (nx - 2)
          (specPoissonInterior ny nx dx dy b p))))

/-- `n` spec-side Jacobi sweeps in sequence. -/
def specPoissonIter (ny nx : ℕ) (dx dy : ℚ) (b : Grid) : ℕ → Grid → Grid
  | 0, p => p
  | n + 1, p =>
      specPoissonSweep ny nx dx dy b (specPoissonIter ny nx dx dy b n p)

/-- The spec's source-term formula for one interior cell:
`rho * ((1/dt)*(du/dx + dv/dy) - (du/dx)^2 - 2*(du/dy)*(dv/dx)
        - (dv/dy)^2)` with centered differences. -/
def specSourceCell (rho dt : ℚ) (u v : Grid) (dx dy : ℚ)
    (i j : ℕ) : ℚ :=
  rho * (1 / dt *
      ((u i (j + 1) - u i (j - 1)) / (2 * dx) +
       (v (i + 1) j - v (i - 1) j) / (2 * dy)) -
    ((u i (j + 1) - u i (j - 1)) / (2 * dx)) ^ 2 -
    2 * ((u (i + 1) j - u (i - 1) j) / (2 * dy)) *
        ((v i (j + 1) - v i (j - 1)) / (2 * dx)) -
    ((v (i + 1) j - v (i - 1) j) / (2 * dy)) ^ 2)

/-- The spec's interior update formula for `u`, flattened as written:
`un[i,j] - un[i,j]*dt/dx*(un[i,j]-un[i,j-1])
 - vn[i,j]*dt/dy*(un[i,j]-un[i-1,j])
 - dt/(2*rho*dx)*(p[i,j+1]-p[i,j-1])
 + nu*dt/dx^2*(un[i,j+1]-2*un[i,j]+un[i,j-1])
 + nu*dt/dy^2*(un[i+1,j]-2*un[i,j]+un[i-1,j])`. -/
def specUCell (dt dx dy rho nu : ℚ) (un vn p : Grid) (i j : ℕ) : ℚ :=
  un i j -
  un i j * dt / dx * (un i j - un i (j - 1)) -
  vn i j * dt / dy * (un i j - un (i - 1) j) -
  dt / (2 * rho * dx) * (p i (j + 1) - p i (j - 1)) +
  nu * dt / dx ^ 2 * (un i (j + 1) - 2 * un i j + un i (j - 1)) +
  nu * dt / dy ^ 2 * (un (i + 1) j - 2 * un i j + un (i - 1) j)

/-- The spec's interior update formula for `v`: the analogue of
`specUCell` with the roles of the fields swapped and the pressure
gradient taken in the y direction, `dt/(2*rho*dy)*(p[i+1,j]-p[i-1,j])`. -/
def specVCell (dt dx dy rho nu : ℚ) (un vn p : Grid) (i j : ℕ) : ℚ :=
  vn i j -
  un i j * dt / dx * (vn i j - vn i (j - 1)) -
  vn i j * dt / dy * (vn i j - vn (i - 1) j) -
  dt / (2 * rho * dy) * (p (i + 1) j - p (i - 1) j) +
  nu * dt / dx ^ 2 * (vn i (j + 1) - 2 * vn i j + vn i (j - 1)) +
  nu * dt / dy ^ 2 * (vn (i + 1) j - 2 * vn i j + vn (i - 1) j)

/-! ## Concrete fields used to instantiate theorems with hypotheses. -/

/-- A second spelling of the zero field, pointwise but not
definitionally identical to `gridZero`. -/
def gridZeroAlt : Grid := fun i j => (i + j : ℚ) * 0

/-- A field that is zero on the single interior cell of a `3 × 3` grid
and `5` on every other cell. -/
def gridJunkEdge : Grid := fun i j => if i = 1 ∧ j = 1 then 0 else 5

/-! ## Helper lemmas. -/

/-- With positive spacings the source's two-fraction interior
assignment equals the spec's single-fraction form, pointwise. -/
lemma poissonInterior_eq_spec (ny nx : ℕ) (dx dy : ℚ) (b pn : Grid)
    (hdx : 0 < dx) (hdy : 0 < dy) :
    poissonInterior ny nx dx dy b pn = specPoissonInterior ny nx dx dy b pn := by
  funext i j
  unfold poissonInterior specPoissonInterior
  split
  · have hD : 2 * (dx ^ 2 + dy ^ 2) ≠ 0 := by positivity
    field_simp
  · rfl

/-- The interior assignment reads `b` only at interior cells. -/
lemma poissonInterior_congr_b (ny nx : ℕ) (dx dy : ℚ) (b1 b2 pn : Grid)
    (hb : ∀ i j, interior ny nx i j → b1 i j = b2 i j) :
    poissonInterior ny nx dx dy b1 pn = poissonInterior ny nx dx dy b2 pn := by
  funext i j
  unfold poissonInterior
  split
  · rw [hb i j (by assumption)]
  · rfl

/-- A full sweep reads `b` only at interior cells. -/
lemma poissonSweep_congr_b (ny nx : ℕ) (dx dy : ℚ) (b1 b2 p : Grid)
    (hb : ∀ i j, interior ny nx i j → b1 i j = b2 i j) :
    poissonSweep ny nx dx dy b1 p = poissonSweep ny nx dx dy b2 p := by
  unfold poissonSweep
  rw [poissonInterior_congr_b ny nx dx dy b1 b2 p hb]

/-- With positive spacings the source's sweep equals the spec's sweep. -/
lemma poissonSweep_eq_spec (ny nx : ℕ) (dx dy : ℚ) (b p : Grid)
    (hdx : 0 < dx) (hdy : 0 < dy) :
    poissonSweep ny nx dx dy b p = specPoissonSweep ny nx dx dy b p := by
  unfold poissonSweep specPoissonSweep
  rw [poissonInterior_eq_spec ny nx dx dy b p hdx hdy]

/-- After one sweep the four pressure boundary conditions all hold,
for any pre-sweep state and any `ny, nx ≥ 3`. -/
lemma poissonSweep_bc (ny nx : ℕ) (dx dy : ℚ) (b p : Grid)
    (hny : 3 ≤ ny) (hnx : 3 ≤ nx) :
    (∀ j, poissonSweep ny nx dx dy b p (ny - 1) j = 0) ∧
    (∀ i, poissonSweep ny nx dx dy b p i (nx - 1) =
        poissonSweep ny nx dx dy b p i (nx - 2)) ∧
    (∀ j, poissonSweep ny nx dx dy b p 0 j =
        poissonSweep ny nx dx dy b p 1 j) ∧
    (∀ i, poissonSweep ny nx dx dy b p i 0 =
        poissonSweep ny nx dx dy b p i 1) := by
  have h0y : (0 : ℕ) ≠ ny - 1 := by omega
  have h1y : (1 : ℕ) ≠ ny - 1 := by omega
  have h0x : (0 : ℕ) ≠ nx - 1 := by omega
  have h1x : (1 : ℕ) ≠ nx - 1 := by omega
  have h2x : nx - 2 ≠ nx - 1 := by omega
  have h20 : nx - 2 ≠ 0 := by omega
  refine ⟨fun j => ?_, fun i => ?_, fun j => ?_, fun i => ?_⟩
  · simp [poissonSweep, setRow]
  · by_cases hi : i = ny - 1
    · simp [poissonSweep, setRow, hi]
    · simp only [poissonSweep, setRow, copyCol, copyRow,
        if_neg hi, if_neg h0x.symm, if_neg h2x, if_neg h20, if_pos rfl]
      by_cases hi0 : i = 0 <;> simp [hi0]
  · simp only [poissonSweep, setRow, copyCol, copyRow,
      if_neg h0y, if_neg h1y]
    by_cases hj : j = 0
    · simp [hj]
    · simp [hj]
  · by_cases hi : i = ny - 1
    · simp [poissonSweep, setRow, hi]
    · simp [poissonSweep, setRow, copyCol, copyRow, hi,
        h0x.symm, h1x.symm, Ne.symm h1x]

/-- After one timestep the velocity boundary assignments leave: `u` one
on the lid row, zero on the row `0` and on both columns away from the
lid row, and `v` zero on all four edges. -/
lemma cavityStep_bc (ny nx : ℕ) (dt dx dy rho nu : ℚ) (nit : ℕ)
    (s : FlowState) (hny : 3 ≤ ny) (hnx : 3 ≤ nx) :
    (∀ j, (cavityStep ny nx dt dx dy rho nu nit s).u (ny - 1) j = 1) ∧
    (∀ j, (cavityStep ny nx dt dx dy rho nu nit s).u 0 j = 0) ∧
    (∀ i, i ≠ ny - 1 → (cavityStep ny nx dt dx dy rho nu nit s).u i 0 = 0) ∧
    (∀ i, i ≠ ny - 1 →
      (cavityStep ny nx dt dx dy rho nu nit s).u i (nx - 1) = 0) ∧
    (∀ j, (cavityStep ny nx dt dx dy rho nu nit s).v 0 j = 0) ∧
    (∀ j, (cavityStep ny nx dt dx dy rho nu nit s).v (ny - 1) j = 0) ∧
    (∀ i, (cavityStep ny nx dt dx dy rho nu nit s).v i 0 = 0) ∧
    (∀ i, (cavityStep ny nx dt dx dy rho nu nit s).v i (nx - 1) = 0) := by
  have h0y : (0 : ℕ) ≠ ny - 1 := by omega
  refine ⟨fun j => ?_, fun j => ?_, fun i hi => ?_, fun i hi => ?_,
    fun j => ?_, fun j => ?_, fun i => ?_, fun i => ?_⟩
  · simp [cavityStep, setRow, setCol]
  · simp only [cavityStep, setRow, setCol, if_neg h0y]
    split_ifs <;> rfl
  · simp only [cavityStep, setRow, setCol, if_neg hi]
    split_ifs <;> rfl
  · simp only [cavityStep, setRow, setCol, if_neg hi]
    split_ifs <;> rfl
  · simp only [cavityStep, setRow, setCol, if_neg h0y]
    split_ifs <;> rfl
  · simp only [cavityStep, setRow, setCol]
    split_ifs <;> rfl
  · simp only [cavityStep, setRow, setCol]
    split_ifs <;> rfl
  · simp only [cavityStep, setRow, setCol]
    split_ifs <;> rfl

/-! ## Claims. -/

/-- C1: `pressure_poisson` performs exactly `nit` Jacobi sweeps — each
snapshotting `p`, assigning every interior cell the spec's
single-fraction formula, then reapplying the boundary conditions —
with no convergence check or early exit, returning `p` after exactly
`nit` sweeps. -/
theorem pressure_poisson_refines_spec (ny nx : ℕ) (p : Grid)
    (dx dy : ℚ) (b : Grid) (nit : ℕ) (hny : 3 ≤ ny) (hnx : 3 ≤ nx)
    (hdx : 0 < dx) (hdy : 0 < dy) :
    pressure_poisson ny nx p dx dy b nit = specPoissonIter ny nx dx dy b nit p := by
  unfold pressure_poisson
  induction nit with
  | zero => rfl
  | succ n ih =>
      show poissonSweep ny nx dx dy b (poissonIter ny nx dx dy b n p) = _
      rw [ih, poissonSweep_eq_spec ny nx dx dy b _ hdx hdy]
      rfl

/-- Witness for C1 at a concrete `3 × 3` instance. -/
theorem pressure_poisson_refines_spec_witness :
    pressure_poisson 3 3 gridZero 1 1 gridJunkEdge 2 =
      specPoissonIter 3 3 1 1 gridJunkEdge 2 gridZero :=
  pressure_poisson_refines_spec 3 3 gridZero 1 1 gridJunkEdge 2
    (by norm_num) (by norm_num) (by norm_num) (by norm_num)

/-- C2: `build_up_b` assigns every interior cell the spec's
source-term formula built from centered differences, and every cell
outside the interior keeps exactly the prior value of `b`. -/
theorem build_up_b_correct (ny nx : ℕ) (b : Grid) (rho dt : ℚ)
    (u v : Grid) (dx dy : ℚ) (i j : ℕ) :
    build_up_b ny nx b rho dt u v dx dy i j =
      if interior ny nx i j then specSourceCell rho dt u v dx dy i j
      else b i j := by
  unfold build_up_b specSourceCell
  split
  · ring
  · rfl

/-- C7 evidence: with `nit = 0` (an invalid configuration per the
spec), `pressure_poisson` raises no error and silently performs zero
sweeps, returning the pressure field unchanged. -/
theorem pressure_poisson_no_validation (ny nx : ℕ) (p : Grid)
    (dx dy : ℚ) (b : Grid) :
    pressure_poisson ny nx p dx dy b 0 = p := rfl

/-- C10: with `nt = 0` the timestep loop never runs, so `cavity_flow`
returns its input fields exactly — in particular no boundary condition
(not even the lid `u[-1,:] = 1`) is imposed. -/
theorem cavity_flow_zero_steps (ny nx : ℕ) (u v : Grid) (dt dx dy : ℚ)
    (p : Grid) (rho nu : ℚ) (nit : ℕ) :
    cavity_flow 0 ny nx u v dt dx dy p rho nu nit = (u, v, p) := rfl

/-- C3: each timestep updates both velocity interiors by the spec's
explicit formulas, reading only the snapshots `un = s.u`, `vn = s.v`
and the freshly solved pressure — never a partially updated field. -/
theorem cavity_step_velocity_refines_spec (ny nx : ℕ)
    (dt dx dy rho nu : ℚ) (nit : ℕ) (s : FlowState) (i j : ℕ)
    (h : interior ny nx i j) :
    (cavityStep ny nx dt dx dy rho nu nit s).u i j =
      specUCell dt dx dy rho nu s.u s.v
        (pressure_poisson ny nx s.p dx dy
          (build_up_b ny nx s.b rho dt s.u s.v dx dy) nit) i j ∧
    (cavityStep ny nx dt dx dy rho nu nit s).v i j =
      specVCell dt dx dy rho nu s.u s.v
        (pressure_poisson ny nx s.p dx dy
          (build_up_b ny nx s.b rho dt s.u s.v dx dy) nit) i j := by
  have hint : interior ny nx i j := h
  unfold interior at h
  have hi0 : i ≠ 0 := by omega
  have hiN : i ≠ ny - 1 := by omega
  have hj0 : j ≠ 0 := by omega
  have hjN : j ≠ nx - 1 := by omega
  constructor
  · simp only [cavityStep, setRow, setCol, if_neg hiN, if_neg hjN,
      if_neg hj0, if_neg hi0, uInteriorUpdate, if_pos hint, specUCell]
    ring
  · simp only [cavityStep, setRow, setCol, if_neg hjN, if_neg hj0,
      if_neg hiN, if_neg hi0, vInteriorUpdate, if_pos hint, specVCell]
    ring

/-- Witness for C3 at the single interior cell of a `3 × 3` grid. -/
theorem cavity_step_velocity_refines_spec_witness :
    (cavityStep 3 3 1 1 1 1 1 1
        ⟨gridZero, gridZero, gridZero, gridZero⟩).u 1 1 =
      specUCell 1 1 1 1 1 gridZero gridZero
        (pressure_poisson 3 3 gridZero 1 1
          (build_up_b 3 3 gridZero 1 1 gridZero gridZero 1 1) 1) 1 1 :=
  (cavity_step_velocity_refines_spec 3 3 1 1 1 1 1 1
    ⟨gridZero, gridZero, gridZero, gridZero⟩ 1 1 (by decide)).1

/-- C4 counterexample: the claim requires `u[:,0] == 0` together with
`u[-1,:] == 1` including at the corners, but after one step of
`cavity_flow` on a `3 × 3` grid the corner cell `u[2,0]` — which lies
on column `0` — holds `1`, not `0`: the lid assignment is applied last
and overwrites the wall assignment at the two lid corners. -/
theorem cavity_flow_bc_claim_cex :
    (cavity_flow 1 3 3 gridZero gridZero 1 1 1 gridZero 1 1 1).1 2 0 = 1 ∧
    (cavity_flow 1 3 3 gridZero gridZero 1 1 1 gridZero 1 1 1).1 2 0 ≠ 0 := by
  constructor <;> decide

/-- C4 amended: after every timestep `k ≥ 1`, exactly: the lid row of
`u` is `1` (corners included), row `0` of `u` is `0`, columns `0` and
`nx-1` of `u` are `0` at every row other than the lid row (where the
lid value `1` wins, the lid assignment being last), and `v` is `0` on
all four edges, corners included. -/
theorem cavity_flow_bc_amended (ny nx : ℕ) (dt dx dy rho nu : ℚ)
    (nit k : ℕ) (s : FlowState) (hny : 3 ≤ ny) (hnx : 3 ≤ nx)
    (hk : 1 ≤ k) :
    (∀ j, (cavityIter ny nx dt dx dy rho nu nit k s).u (ny - 1) j = 1) ∧
    (∀ j, (cavityIter ny nx dt dx dy rho nu nit k s).u 0 j = 0) ∧
    (∀ i, i ≠ ny - 1 →
      (cavityIter ny nx dt dx dy rho nu nit k s).u i 0 = 0) ∧
    (∀ i, i ≠ ny - 1 →
      (cavityIter ny nx dt dx dy rho nu nit k s).u i (nx - 1) = 0) ∧
    (∀ j, (cavityIter ny nx dt dx dy rho nu nit k s).v 0 j = 0) ∧
    (∀ j, (cavityIter ny nx dt dx dy rho nu nit k s).v (ny - 1) j = 0) ∧
    (∀ i, (cavityIter ny nx dt dx dy rho nu nit k s).v i 0 = 0) ∧
    (∀ i, (cavityIter ny nx dt dx dy rho nu nit k s).v i (nx - 1) = 0) := by
  obtain ⟨m, rfl⟩ : ∃ m, k = m + 1 := ⟨k - 1, by omega⟩
  exact cavityStep_bc ny nx dt dx dy rho nu nit
    (cavityIter ny nx dt dx dy rho nu nit m s) hny hnx

/-- Witness for the amended C4: the lid corner after one concrete
step. -/
theorem cavity_flow_bc_amended_witness :
    (cavityIter 3 3 1 1 1 1 1 1 1
        ⟨gridZero, gridZero, gridZero, gridZero⟩).u 2 0 = 1 :=
  (cavity_flow_bc_amended 3 3 1 1 1 1 1 1 1
    ⟨gridZero, gridZero, gridZero, gridZero⟩
    (by norm_num) (by norm_num) (by norm_num)).1 0

/-- C5: after every individual Jacobi sweep inside `pressure_poisson`
(state after `k ≥ 1` sweeps, any `ny, nx ≥ 3`), all four pressure
boundary conditions hold simultaneously and exactly, despite the four
assignments being applied sequentially. -/
theorem pressure_poisson_sweep_bc (ny nx : ℕ) (dx dy : ℚ) (b p : Grid)
    (k : ℕ) (hny : 3 ≤ ny) (hnx : 3 ≤ nx) (hk : 1 ≤ k) :
    (∀ j, poissonIter ny nx dx dy b k p (ny - 1) j = 0) ∧
    (∀ i, poissonIter ny nx dx dy b k p i (nx - 1) =
        poissonIter ny nx dx dy b k p i (nx - 2)) ∧
    (∀ j, poissonIter ny nx dx dy b k p 0 j =
        poissonIter ny nx dx dy b k p 1 j) ∧
    (∀ i, poissonIter ny nx dx dy b k p i 0 =
        poissonIter ny nx dx dy b k p i 1) := by
  obtain ⟨m, rfl⟩ : ∃ m, k = m + 1 := ⟨k - 1, by omega⟩
  exact poissonSweep_bc ny nx dx dy b (poissonIter ny nx dx dy b m p)
    hny hnx

/-- Witness for C5 after one concrete sweep. -/
theorem pressure_poisson_sweep_bc_witness :
    poissonIter 3 3 1 1 gridJunkEdge 1 gridZero 2 0 = 0 :=
  (pressure_poisson_sweep_bc 3 3 1 1 gridJunkEdge gridZero 1
    (by norm_num) (by norm_num) (by norm_num)).1 0

/-- C6: with a zero source term and a uniform initial pressure
satisfying the boundary conditions (the Dirichlet row forces the value
to be zero), one Jacobi sweep of `pressure_poisson` leaves every cell
of `p` exactly unchanged. -/
theorem zero_source_sweep_fixed (ny nx : ℕ) (dx dy : ℚ) (b p : Grid)
    (c : ℚ) (hny : 3 ≤ ny) (hnx : 3 ≤ nx) (hb : ∀ i j, b i j = 0)
    (huni : ∀ i j, p i j = c) (hbot : ∀ j, p (ny - 1) j = 0) :
    ∀ i j, pressure_poisson ny nx p dx dy b 1 i j = p i j := by
  have hc : c = 0 := by rw [← huni (ny - 1) 0]; exact hbot 0
  have hp : ∀ i j, p i j = 0 := fun i j => by rw [huni i j, hc]
  intro i j
  show poissonSweep ny nx dx dy b p i j = p i j
  rw [hp i j]
  simp [poissonSweep, setRow, copyCol, copyRow, poissonInterior, hp, hb]

/-- Witness for C6 on the zero field. -/
theorem zero_source_sweep_fixed_witness :
    pressure_poisson 3 3 gridZero 1 1 gridZero 1 1 1 = gridZero 1 1 :=
  zero_source_sweep_fixed 3 3 1 1 gridZero gridZero 0
    (by norm_num) (by norm_num) (fun i j => rfl) (fun i j => rfl)
    (fun j => rfl) 1 1

/-- C8: `pressure_poisson` never reads the boundary cells of `b` — two
source terms agreeing on the interior produce identical pressure
fields, for the same initial `p`, spacings and iteration count. -/
theorem pressure_poisson_ignores_b_edges (ny nx : ℕ) (p : Grid)
    (dx dy : ℚ) (b1 b2 : Grid) (nit : ℕ)
    (hb : ∀ i j, interior ny nx i j → b1 i j = b2 i j) :
    pressure_poisson ny nx p dx dy b1 nit =
      pressure_poisson ny nx p dx dy b2 nit := by
  unfold pressure_poisson
  induction nit with
  | zero => rfl
  | succ n ih =>
      show poissonSweep ny nx dx dy b1 (poissonIter ny nx dx dy b1 n p) =
        poissonSweep ny nx dx dy b2 (poissonIter ny nx dx dy b2 n p)
      rw [ih, poissonSweep_congr_b ny nx dx dy b1 b2 _ hb]

/-- Witness for C8: junk on the edge cells of `b` does not change the
result. -/
theorem pressure_poisson_ignores_b_edges_witness :
    pressure_poisson 3 3 gridZero 1 1 gridZero 2 =
      pressure_poisson 3 3 gridZero 1 1 gridJunkEdge 2 :=
  pressure_poisson_ignores_b_edges 3 3 gridZero 1 1 gridZero
    gridJunkEdge 2
    (fun i j h => by
      unfold interior at h
      have hi : i = 1 := by omega
      have hj : j = 1 := by omega
      subst hi; subst hj
      norm_num [gridZero, gridJunkEdge])

/-- C9: `cavity_flow` is deterministic — pointwise-equal input fields
with the same scalars yield identical outputs; the core holds no
randomness and no input-independent state. -/
theorem cavity_flow_deterministic (nt ny nx : ℕ)
    (u1 v1 p1 u2 v2 p2 : Grid) (dt dx dy rho nu : ℚ) (nit : ℕ)
    (hu : ∀ i j, u1 i j = u2 i j) (hv : ∀ i j, v1 i j = v2 i j)
    (hp : ∀ i j, p1 i j = p2 i j) :
    cavity_flow nt ny nx u1 v1 dt dx dy p1 rho nu nit =
      cavity_flow nt ny nx u2 v2 dt dx dy p2 rho nu nit := by
  have hu2 : u1 = u2 := funext fun i => funext fun j => hu i j
  have hv2 : v1 = v2 := funext fun i => funext fun j => hv i j
  have hp2 : p1 = p2 := funext fun i => funext fun j => hp i j
  rw [hu2, hv2, hp2]

/-- Witness for C9 with two spellings of the zero field. -/
theorem cavity_flow_deterministic_witness :
    cavity_flow 1 3 3 gridZero gridZero 1 1 1 gridZero 1 1 1 =
      cavity_flow 1 3 3 gridZeroAlt gridZeroAlt 1 1 1 gridZeroAlt 1 1 1 :=
  cavity_flow_deterministic 1 3 3 gridZero gridZero gridZero
    gridZeroAlt gridZeroAlt gridZeroAlt 1 1 1 1 1 1
    (fun i j => by norm_num [gridZero, gridZeroAlt])
    (fun i j => by norm_num [gridZero, gridZeroAlt])
    (fun i j => by norm_num [gridZero, gridZeroAlt])

end NavierStokes
